import Mathlib

/-!
Verification development for the CommandSnippetManager core: a shallow
embedding in Lean 4 of the record store (`src/db/database.py`), the schema
migrator (`src/db/migrations.py`), the backup/snapshot subsystem
(`src/utils/backup.py`) and the orchestration layer
(`src/core/snippet_manager.py`), together with theorems settling the
frozen claims about the natural-language specification.

Modelling conventions:
- Filesystem paths are modelled as `/`-separated relative path strings, the
  form the application actually uses (`config.DB_PATH` is a relative join of
  directory components).  `dirname`/`joinPath` below reproduce
  `os.path.dirname`/`os.path.join` on such paths.
- Machine-level details that no claim depends on (ISO timestamp rendering,
  JSON text encoding, byte-for-byte file contents) are abstracted:
  timestamps are `Nat`, file contents are `String`.
- Fallible Python code (raising exceptions) is embedded as `Except String`.
-/

namespace CSM

/-! ## Path model: `os.path` operations on `/`-separated relative paths -/

/-- Split a character list on a separator character, keeping empty pieces
(`splitOnChar '/' "a/b"` gives `["a","b"]`, on `""` gives `[""]`). -/
def splitOnChar (sep : Char) : List Char → List (List Char)
  | [] => [[]]
  | c :: cs =>
    let r := splitOnChar sep cs
    if c = sep then [] :: r else
      match r with
      | [] => [[c]]
      | h :: t => (c :: h) :: t

/-- Path components of a `/`-separated path. -/
def splitPath (p : String) : List String :=
  (splitOnChar '/' p.data).map String.mk

/-- `os.path.dirname` on relative paths: everything before the last `/`,
or `""` when the path has a single component. -/
def dirname (p : String) : String :=
  String.intercalate "/" (splitPath p).dropLast

/-- `os.path.join` for a relative second component. -/
def joinPath (a b : String) : String :=
  if a = "" then b else a ++ "/" ++ b

/-- Join a list of character lists with a separator character. -/
def intercalateChar (sep : Char) : List (List Char) → List Char
  | [] => []
  | [l] => l
  | l :: ls => l ++ sep :: intercalateChar sep ls

/-- `pathlib.Path(p).name`: the final path component. -/
def basenameOf (p : String) : String :=
  match (splitPath p).getLast? with
  | some b => b
  | none => ""

/-- `pathlib.Path(p).stem` on the final component: the name with its last
dot-suffix removed (a lone leading dot is not a suffix). -/
def stemOf (name : List Char) : List Char :=
  match splitOnChar '.' name with
  | [] => name
  | [_] => name
  | [[], _] => name
  | parts => intercalateChar '.' parts.dropLast

/-- `pathlib.Path(p).stem` for a path. -/
def pathStem (p : String) : String :=
  String.mk (stemOf (basenameOf p).data)

lemma ne_empty_of_data_ne_nil (s : String) (h : s.data ≠ []) : s ≠ "" := by
  intro e
  subst e
  exact h rfl

lemma append_slash_append_ne_empty (a b : String) : a ++ "/" ++ b ≠ "" := by
  apply ne_empty_of_data_ne_nil
  simp [String.data_append]

lemma joinPath_ne_empty (a b : String) (hb : b ≠ "") : joinPath a b ≠ "" := by
  unfold joinPath
  by_cases ha : a = ""
  · simpa [ha] using hb
  · simpa [ha] using append_slash_append_ne_empty a b

lemma joinPath_assoc (a b c : String) (hb : b ≠ "") :
    joinPath (joinPath a b) c = joinPath a (b ++ "/" ++ c) := by
  unfold joinPath
  by_cases ha : a = ""
  · simp [ha, hb]
  · rw [if_neg ha, if_neg (append_slash_append_ne_empty a b), if_neg ha]
    simp [String.append_assoc]

/-! ## Claim C2: placement of snapshot directories and the safety copy -/

namespace Backup

/-- Directory allocated for a BEFORE snapshot, as computed by
`create_snapshot_before` (src/utils/backup.py): it takes
`auto_snapshot_dir = os.path.dirname(db_path)` and then joins
`os.path.dirname(auto_snapshot_dir)` with `backups`, `auto` and the
timestamp id. -/
def create_snapshot_before_dir (db_path ts : String) : String :=
  let auto_snapshot_dir := dirname db_path
  let auto_snapshot_parent := joinPath (joinPath (dirname auto_snapshot_dir) "backups") "auto"
  joinPath auto_snapshot_parent ts

/-- Safety-copy path written by `restore_from_snapshot`
(src/utils/backup.py): `os.path.join(os.path.dirname(db_path), 'backups',
'manual', 'safety_before_restore_<ts>_backup.db')`. -/
def restore_from_snapshot_safety_path (db_path ts : String) : String :=
  let safety_backup_dir := dirname db_path
  joinPath (joinPath (joinPath safety_backup_dir "backups") "manual")
    ("safety_before_restore_" ++ ts ++ "_backup.db")

/-- Modelled from the spec's words for claim C2: the claim asserts that the
BEFORE-snapshot directory sits at `<dataRoot>/backups/auto/<ts>` where the
data root is the directory containing the live database file
(`dirname db_path`). -/
def claimedSnapshotDir (db_path ts : String) : String :=
  joinPath (joinPath (joinPath (dirname db_path) "backups") "auto") ts

/-- Spec-style description of a snapshot directory hanging off a given root. -/
def specSnapshotDir (root ts : String) : String :=
  joinPath root ("backups/auto/" ++ ts)

/-- Spec-style description of a manual-safety-copy path hanging off a given
root. -/
def specSafetyPath (root fname : String) : String :=
  joinPath root ("backups/manual/" ++ fname)

end Backup

/-- C2 counterexample: for the database path `data/snippets.db` the code
places the BEFORE snapshot at `backups/auto/<ts>` — under the PARENT of the
data directory — not at `data/backups/auto/<ts>` as the claim requires. -/
theorem c2_snapshot_dir_counterexample :
    Backup.create_snapshot_before_dir "data/snippets.db" "20240101_000000_000000" ≠
      Backup.claimedSnapshotDir "data/snippets.db" "20240101_000000_000000" ∧
    Backup.create_snapshot_before_dir "data/snippets.db" "20240101_000000_000000" =
      "backups/auto/20240101_000000_000000" ∧
    Backup.restore_from_snapshot_safety_path "data/snippets.db" "20240101_000000_000000" =
      "data/backups/manual/safety_before_restore_20240101_000000_000000_backup.db" := by
  refine ⟨by decide, by decide, by decide⟩

/-- C2 amended: the BEFORE-snapshot directory is
`<parent-of-dataRoot>/backups/auto/<ts>` (rooted one level ABOVE the
directory containing the database file), while the safety copy written by
`restore_from_snapshot` is `<dataRoot>/backups/manual/
safety_before_restore_<ts>_backup.db` (rooted AT the directory containing
the database file); the two `backups/` trees hang off different roots. -/
theorem c2_snapshot_dir_amended (db_path ts : String) :
    Backup.create_snapshot_before_dir db_path ts =
      Backup.specSnapshotDir (dirname (dirname db_path)) ts ∧
    Backup.restore_from_snapshot_safety_path db_path ts =
      Backup.specSafetyPath (dirname db_path)
        ("safety_before_restore_" ++ ts ++ "_backup.db") := by
  constructor
  · show joinPath (joinPath (joinPath (dirname (dirname db_path)) "backups") "auto") ts = _
    rw [joinPath_assoc _ "backups" "auto" (by decide),
      joinPath_assoc _ ("backups" ++ "/" ++ "auto") ts (append_slash_append_ne_empty _ _)]
    rfl
  · show joinPath (joinPath (joinPath (dirname db_path) "backups") "manual") _ = _
    rw [joinPath_assoc _ "backups" "manual" (by decide),
      joinPath_assoc _ ("backups" ++ "/" ++ "manual") _ (append_slash_append_ne_empty _ _)]
    rfl

/-! ## Filesystem model for the backup/restore file operations -/

/-- A flat filesystem: an association list from path to file contents. -/
abbrev FS := List (String × String)

def fsGet : FS → String → Option String
  | [], _ => none
  | e :: rest, p => if e.1 = p then some e.2 else fsGet rest p

def fsErase : FS → String → FS
  | [], _ => []
  | e :: rest, p => if e.1 = p then fsErase rest p else e :: fsErase rest p

def fsSet (fs : FS) (p v : String) : FS := (p, v) :: fsErase fs p

def fsExists (fs : FS) (p : String) : Bool := (fsGet fs p).isSome

lemma fsGet_erase_eq (fs : FS) (p : String) : fsGet (fsErase fs p) p = none := by
  induction fs with
  | nil => rfl
  | cons e rest ih =>
    by_cases he : e.1 = p
    · simpa [fsErase, he] using ih
    · simpa [fsErase, fsGet, he] using ih

lemma fsGet_erase_ne (fs : FS) (p q : String) (h : q ≠ p) :
    fsGet (fsErase fs p) q = fsGet fs q := by
  induction fs with
  | nil => rfl
  | cons e rest ih =>
    by_cases he : e.1 = p
    · have hq : ¬ p = q := fun hc => h hc.symm
      simpa [fsErase, fsGet, he, hq] using ih
    · by_cases hq : e.1 = q
      · simp [fsErase, fsGet, he, hq, h]
      · simpa [fsErase, fsGet, he, hq] using ih

lemma fsGet_set_eq (fs : FS) (p v : String) : fsGet (fsSet fs p v) p = some v := by
  simp [fsSet, fsGet]

lemma fsGet_set_ne (fs : FS) (p v : String) (q : String) (h : q ≠ p) :
    fsGet (fsSet fs p v) q = fsGet fs q := by
  have hp : ¬ p = q := fun hc => h hc.symm
  simp only [fsSet, fsGet, hp, if_false]
  exact fsGet_erase_ne fs p q h

/-- A string is never equal to itself followed by two appended suffixes, the
second of which is a nonempty literal. -/
lemma ne_self_append_append (s x y : String) (hx : x.length ≠ 0) :
    s ≠ s ++ x ++ y := by
  intro e
  have hl := congrArg String.length e
  rw [String.length_append, String.length_append] at hl
  omega

namespace Backup

/-- `shutil.copy2(src, dst)` on the flat filesystem: fails when the source
file is absent. -/
def copy2 (fs : FS) (src dst : String) : Except String FS :=
  match fsGet fs src with
  | some c => .ok (fsSet fs dst c)
  | none => .error ("copy failed: " ++ src)

/-- `restore_database(backup_path, db_path, keep_backup)`
(src/utils/backup.py lines 170–208): checks the backup file exists, takes a
safety copy of the current database to `<db_path>.pre_restore_<ts>` when a
file is present at `db_path`, overwrites `db_path` with the backup's
contents, and removes the backup file when `keep_backup` is false. -/
def restore_database (fs : FS) (backup_path db_path : String) (keep_backup : Bool)
    (ts : String) : Except String FS :=
  if fsExists fs backup_path = false then
    .error ("Backup file not found: " ++ backup_path)
  else
    match (if fsExists fs db_path then
             copy2 fs db_path (db_path ++ ".pre_restore_" ++ ts)
           else .ok fs) with
    | .error e => .error e
    | .ok fs1 =>
      match copy2 fs1 backup_path db_path with
      | .error e => .error e
      | .ok fs2 => .ok (if keep_backup then fs2 else fsErase fs2 backup_path)

end Backup

/-- C3: `restore_database` fails without touching anything when the backup
file is absent; otherwise it succeeds, the database file ends up with the
backup's contents, a safety copy of the prior database contents appears at
`<db_path>.pre_restore_<ts>` whenever a database file existed (regardless of
`keep_backup`), and the backup file is deleted exactly when `keep_backup` is
false. -/
theorem c3_restore_database_semantics (fs : FS) (backup_path db_path : String)
    (keep_backup : Bool) (ts : String)
    (hbd : backup_path ≠ db_path)
    (hbs : backup_path ≠ db_path ++ ".pre_restore_" ++ ts) :
    (fsExists fs backup_path = false →
      Backup.restore_database fs backup_path db_path keep_backup ts =
        .error ("Backup file not found: " ++ backup_path)) ∧
    (fsExists fs backup_path = true →
      (Backup.restore_database fs backup_path db_path keep_backup ts).isOk = true) ∧
    (∀ fs', Backup.restore_database fs backup_path db_path keep_backup ts = .ok fs' →
      fsGet fs' db_path = fsGet fs backup_path ∧
      (fsExists fs db_path = true →
        fsGet fs' (db_path ++ ".pre_restore_" ++ ts) = fsGet fs db_path) ∧
      (keep_backup = false → fsExists fs' backup_path = false) ∧
      (keep_backup = true → fsGet fs' backup_path = fsGet fs backup_path)) := by
  have hds : db_path ≠ db_path ++ ".pre_restore_" ++ ts :=
    ne_self_append_append db_path ".pre_restore_" ts (by decide)
  rcases hov : fsGet fs backup_path with _ | cb
  · -- backup file absent: immediate error, nothing else happens
    have hex : fsExists fs backup_path = false := by simp [fsExists, hov]
    have hval : Backup.restore_database fs backup_path db_path keep_backup ts =
        .error ("Backup file not found: " ++ backup_path) := by
      simp [Backup.restore_database, hex]
    refine ⟨fun _ => hval, ?_, ?_⟩
    · intro ht
      rw [hex] at ht
      cases ht
    · intro fs' hfs'
      rw [hval] at hfs'
      cases hfs'
  · have hex : fsExists fs backup_path = true := by simp [fsExists, hov]
    rcases hod : fsGet fs db_path with _ | cd
    · -- no database file yet: no safety copy is taken
      have hdb : fsExists fs db_path = false := by simp [fsExists, hod]
      have hval : Backup.restore_database fs backup_path db_path keep_backup ts =
          .ok (if keep_backup then fsSet fs db_path cb
               else fsErase (fsSet fs db_path cb) backup_path) := by
        simp [Backup.restore_database, hex, hdb, Backup.copy2, hov]
      refine ⟨?_, ?_, ?_⟩
      · intro hf
        rw [hex] at hf
        cases hf
      · intro _
        rw [hval]
        rfl
      · intro fs' hfs'
        rw [hval] at hfs'
        injection hfs' with hfs'
        subst hfs'
        refine ⟨?_, ?_, ?_, ?_⟩
        · cases keep_backup with
          | false =>
            rw [if_neg (by simp), fsGet_erase_ne _ _ _ (Ne.symm hbd), fsGet_set_eq]
          | true => rw [if_pos rfl, fsGet_set_eq]
        · intro h
          rw [hdb] at h
          cases h
        · intro hk
          subst hk
          rw [if_neg (by simp)]
          simp [fsExists, fsGet_erase_eq]
        · intro hk
          subst hk
          rw [if_pos rfl, fsGet_set_ne _ _ _ _ hbd, hov]
    · -- database file present: safety copy taken first
      have hdb : fsExists fs db_path = true := by simp [fsExists, hod]
      have h1 : fsGet (fsSet fs (db_path ++ ".pre_restore_" ++ ts) cd) backup_path = some cb := by
        rw [fsGet_set_ne _ _ _ _ hbs]; exact hov
      have hval : Backup.restore_database fs backup_path db_path keep_backup ts =
          .ok (if keep_backup then
                 fsSet (fsSet fs (db_path ++ ".pre_restore_" ++ ts) cd) db_path cb
               else
                 fsErase (fsSet (fsSet fs (db_path ++ ".pre_restore_" ++ ts) cd) db_path cb)
                   backup_path) := by
        simp [Backup.restore_database, hex, hdb, Backup.copy2, hod, h1]
      refine ⟨?_, ?_, ?_⟩
      · intro hf
        rw [hex] at hf
        cases hf
      · intro _
        rw [hval]
        rfl
      · intro fs' hfs'
        rw [hval] at hfs'
        injection hfs' with hfs'
        subst hfs'
        refine ⟨?_, ?_, ?_, ?_⟩
        · cases keep_backup with
          | false =>
            rw [if_neg (by simp), fsGet_erase_ne _ _ _ (Ne.symm hbd), fsGet_set_eq]
          | true => rw [if_pos rfl, fsGet_set_eq]
        · intro _
          cases keep_backup with
          | false =>
            rw [if_neg (by simp), fsGet_erase_ne _ _ _ (Ne.symm hbs),
              fsGet_set_ne _ _ _ _ (Ne.symm hds), fsGet_set_eq]
          | true =>
            rw [if_pos rfl, fsGet_set_ne _ _ _ _ (Ne.symm hds), fsGet_set_eq]
        · intro hk
          subst hk
          rw [if_neg (by simp)]
          simp [fsExists, fsGet_erase_eq]
        · intro hk
          subst hk
          rw [if_pos rfl, fsGet_set_ne _ _ _ _ hbd, h1]

/-- C3 witness: a concrete filesystem with a backup file `b.db` and a live
database `d.db`, restored with `keep_backup = false`. -/
theorem c3_restore_database_semantics_witness :
    (fsExists [("b.db", "B"), ("d.db", "D")] "b.db" = false →
      Backup.restore_database [("b.db", "B"), ("d.db", "D")] "b.db" "d.db" false "T" =
        .error ("Backup file not found: " ++ "b.db")) ∧
    (fsExists [("b.db", "B"), ("d.db", "D")] "b.db" = true →
      (Backup.restore_database [("b.db", "B"), ("d.db", "D")] "b.db" "d.db" false "T").isOk
        = true) ∧
    (∀ fs', Backup.restore_database [("b.db", "B"), ("d.db", "D")] "b.db" "d.db" false "T" =
        .ok fs' →
      fsGet fs' "d.db" = fsGet [("b.db", "B"), ("d.db", "D")] "b.db" ∧
      (fsExists [("b.db", "B"), ("d.db", "D")] "d.db" = true →
        fsGet fs' ("d.db" ++ ".pre_restore_" ++ "T") =
          fsGet [("b.db", "B"), ("d.db", "D")] "d.db") ∧
      (false = false → fsExists fs' "b.db" = false) ∧
      (false = true → fsGet fs' "b.db" = fsGet [("b.db", "B"), ("d.db", "D")] "b.db")) :=
  c3_restore_database_semantics [("b.db", "B"), ("d.db", "D")] "b.db" "d.db" false "T"
    (by decide) (by decide)

/-! ## Claim C10: `backup_database` creates the target directory before the
source-existence check -/

/-- A filesystem that also tracks which directories exist. -/
structure FSD where
  files : FS
  dirs : List String
deriving DecidableEq

/-- `os.makedirs(d, exist_ok=True)` restricted to recording the target
directory. -/
def makedirs (s : FSD) (d : String) : FSD :=
  { s with dirs := if d ∈ s.dirs then s.dirs else d :: s.dirs }

def dirExists (s : FSD) (d : String) : Bool := d ∈ s.dirs

namespace Backup

/-- Backup directory resolution in `backup_database`
(src/utils/backup.py line 146–147): `backup_dir = os.path.dirname(db_path)
or 'data'` when no directory is supplied. -/
def resolvedBackupDir (db_path : String) (backup_dir : Option String) : String :=
  match backup_dir with
  | some d => d
  | none => if dirname db_path = "" then "data" else dirname db_path

/-- Backup filename `<dbstem>_backup_<ts>.db` (src/utils/backup.py
lines 153–156). -/
def backup_filename (db_path ts : String) : String :=
  pathStem db_path ++ "_backup_" ++ ts ++ ".db"

/-- `backup_database(db_path, backup_dir)` (src/utils/backup.py
lines 130–167): resolves the backup directory, creates it with
`os.makedirs(..., exist_ok=True)`, computes the timestamped backup path,
THEN checks that the source database exists (raising if not), and finally
copies the database to the backup path.  Returns the result together with
the filesystem state after the call. -/
def backup_database (s : FSD) (db_path : String) (backup_dir : Option String)
    (ts : String) : Except String String × FSD :=
  let bdir := resolvedBackupDir db_path backup_dir
  let s1 := makedirs s bdir
  let backup_path := joinPath bdir (backup_filename db_path ts)
  match fsGet s1.files db_path with
  | none => (.error ("Database file not found: " ++ db_path), s1)
  | some c => (.ok backup_path, { s1 with files := fsSet s1.files backup_path c })

end Backup

/-- C10: when the source database file does not exist, `backup_database`
returns an error and writes no file, but the resolved target backup
directory has nonetheless been created — the failure path does not leave
the filesystem unchanged. -/
theorem c10_backup_database_creates_dir_on_failure (s : FSD) (db_path : String)
    (backup_dir : Option String) (ts : String)
    (h : fsExists s.files db_path = false) :
    (Backup.backup_database s db_path backup_dir ts).1 =
      .error ("Database file not found: " ++ db_path) ∧
    dirExists (Backup.backup_database s db_path backup_dir ts).2
      (Backup.resolvedBackupDir db_path backup_dir) = true ∧
    (Backup.backup_database s db_path backup_dir ts).2.files = s.files := by
  have hget : fsGet s.files db_path = none := by
    rcases hg : fsGet s.files db_path with _ | c
    · rfl
    · rw [fsExists, hg] at h
      cases h
  have hget2 :
      fsGet (makedirs s (Backup.resolvedBackupDir db_path backup_dir)).files db_path = none :=
    hget
  refine ⟨?_, ?_, ?_⟩
  · simp [Backup.backup_database, hget2]
  · simp only [Backup.backup_database, hget2]
    by_cases hd : Backup.resolvedBackupDir db_path backup_dir ∈ s.dirs
    · simp [makedirs, dirExists, hd]
    · simp [makedirs, dirExists, hd]
  · simp only [Backup.backup_database, hget2]
    rfl

/-- C10 witness: backing up a missing database `data/snippets.db` from an
empty filesystem fails but creates the `data` directory. -/
theorem c10_backup_database_creates_dir_on_failure_witness :
    (Backup.backup_database ⟨[], []⟩ "data/snippets.db" none "T").1 =
      .error ("Database file not found: " ++ "data/snippets.db") ∧
    dirExists (Backup.backup_database ⟨[], []⟩ "data/snippets.db" none "T").2
      (Backup.resolvedBackupDir "data/snippets.db" none) = true ∧
    (Backup.backup_database ⟨[], []⟩ "data/snippets.db" none "T").2.files = [] :=
  c10_backup_database_creates_dir_on_failure ⟨[], []⟩ "data/snippets.db" none "T" (by decide)

/-! ## Record store model (src/db/database.py, src/db/models.py) -/

/-- Python `str.strip()`: drop leading and trailing whitespace. -/
def pyStrip (s : String) : String :=
  String.mk (((s.data.dropWhile Char.isWhitespace).reverse.dropWhile Char.isWhitespace).reverse)

/-- Lowercasing used to model SQLite `LIKE`'s ASCII case-insensitivity. -/
def pyLower (s : String) : String := String.mk (s.data.map Char.toLower)

/-- Substring test on character lists. -/
def containsSub (needle : List Char) : List Char → Bool
  | [] => needle.isEmpty
  | c :: rest => needle.isPrefixOf (c :: rest) || containsSub needle rest

/-- SQLite `column LIKE '%pat%'`: case-insensitive substring match. -/
def likeContains (hay pat : String) : Bool :=
  containsSub (pyLower pat).data (pyLower hay).data

/-- One row of the `snippets` table.  Timestamps (stored as ISO-8601 strings
ordered like the instants they denote) are modelled as `Nat`. -/
structure Row where
  id : Nat
  name : String
  description : String
  command_text : String
  tags : String
  last_used : Nat
  created_at : Nat
deriving DecidableEq

/-- The `snippets` table plus the AUTOINCREMENT counter (SQLite assigns
`nextId` to the next inserted row; `DELETE` does not reset it). -/
structure Store where
  rows : List Row
  nextId : Nat
deriving DecidableEq

def emptyStore : Store := ⟨[], 1⟩

/-- `ORDER BY last_used DESC` (a deterministic stable sort). -/
def orderByLastUsedDesc (rows : List Row) : List Row :=
  List.insertionSort (fun a b => b.last_used ≤ a.last_used) rows

namespace Database

/-- `insert_snippet` (src/db/database.py lines 131–168): the given row's id
is ignored and the store assigns the next id. -/
def insert_snippet (st : Store) (r : Row) : Nat × Store :=
  (st.nextId, ⟨st.rows ++ [{ r with id := st.nextId }], st.nextId + 1⟩)

/-- `get_all_snippets` (src/db/database.py lines 170–210):
`SELECT ... ORDER BY last_used DESC`. -/
def get_all_snippets (st : Store) : List Row :=
  orderByLastUsedDesc st.rows

/-- `get_snippet_by_id` (src/db/database.py lines 212–245). -/
def get_snippet_by_id (st : Store) (i : Nat) : Option Row :=
  st.rows.find? (fun r => r.id == i)

/-- `update_snippet` (src/db/database.py lines 247–278):
`UPDATE snippets SET name, description, command_text, tags WHERE id = ?`;
always returns `True` on success. -/
def update_snippet (st : Store) (s : Row) : Bool × Store :=
  (true,
   ⟨st.rows.map (fun r =>
      if r.id = s.id then
        { r with name := s.name, description := s.description,
                 command_text := s.command_text, tags := s.tags }
      else r),
    st.nextId⟩)

/-- `delete_snippet` (src/db/database.py lines 280–299):
`DELETE FROM snippets WHERE id = ?`; always returns `True` on success,
whether or not a row matched. -/
def delete_snippet (st : Store) (i : Nat) : Bool × Store :=
  (true, ⟨st.rows.filter (fun r => !(r.id == i)), st.nextId⟩)

/-- `name_exists` (src/db/database.py lines 367–389). -/
def name_exists (st : Store) (n : String) (excludeId : Option Nat) : Bool :=
  st.rows.any (fun r =>
    r.name == n &&
    (match excludeId with
     | none => true
     | some i => !(r.id == i)))

/-- Text condition of `search_snippets` (src/db/database.py lines 320–331):
added only when the query is non-blank, and then matched as
`%term%` against name, description, command_text and tags. -/
def textCond (q : String) (r : Row) : Bool :=
  if pyStrip q = "" then true
  else
    likeContains r.name (pyStrip q) || likeContains r.description (pyStrip q) ||
    likeContains r.command_text (pyStrip q) || likeContains r.tags (pyStrip q)

/-- Tags condition of `search_snippets` (src/db/database.py lines 333–342):
`if tags_list:` is Python-falsy for both `None` and `[]`; blank tags are
dropped, and an empty condition list adds no clause. -/
def tagCond (tags_list : Option (List String)) (r : Row) : Bool :=
  match tags_list with
  | none => true
  | some l =>
    if l.isEmpty then true
    else
      match l.filter (fun t => !(pyStrip t == "")) with
      | [] => true
      | conds => conds.any (fun t => likeContains r.tags (pyStrip t))

/-- `search_snippets` (src/db/database.py lines 301–365): one `SELECT` whose
`WHERE` clause conjoins the optional text and tag conditions, followed by
`ORDER BY last_used DESC`. -/
def search_snippets (st : Store) (q : String) (tags_list : Option (List String)) : List Row :=
  orderByLastUsedDesc (st.rows.filter (fun r => textCond q r && tagCond tags_list r))

end Database

/-- C6: with a blank search term and no tag filter, `search_snippets`
returns exactly the same list, in the same order, as `get_all_snippets`. -/
theorem c6_blank_search_equals_get_all (st : Store) (q : String)
    (tags_list : Option (List String))
    (hq : pyStrip q = "")
    (ht : tags_list = none ∨ tags_list = some []) :
    Database.search_snippets st q tags_list = Database.get_all_snippets st := by
  have hcond : ∀ r : Row, (Database.textCond q r && Database.tagCond tags_list r) = true := by
    intro r
    rcases ht with h | h <;>
      simp [Database.textCond, Database.tagCond, hq, h]
  unfold Database.search_snippets Database.get_all_snippets
  rw [List.filter_eq_self.mpr (fun a _ => hcond a)]

/-- C6 witness: an all-whitespace term and no tag filter on a two-row
store. -/
theorem c6_blank_search_equals_get_all_witness :
    Database.search_snippets
        ⟨[⟨1, "alpha", "", "echo a", "x", 5, 1⟩, ⟨2, "beta", "", "echo b", "y", 9, 2⟩], 3⟩
        "  " none =
      Database.get_all_snippets
        ⟨[⟨1, "alpha", "", "echo a", "x", 5, 1⟩, ⟨2, "beta", "", "echo b", "y", 9, 2⟩], 3⟩ :=
  c6_blank_search_equals_get_all _ "  " none (by decide) (Or.inl rfl)

/-- C7: deleting an id that matches no row returns success and leaves the
store unchanged. -/
theorem c7_delete_nonexistent_is_noop (st : Store) (i : Nat)
    (h : ∀ r ∈ st.rows, r.id ≠ i) :
    Database.delete_snippet st i = (true, st) := by
  unfold Database.delete_snippet
  have : st.rows.filter (fun r => !(r.id == i)) = st.rows := by
    apply List.filter_eq_self.mpr
    intro a ha
    simpa using h a ha
  rw [this]

/-- C7 witness: deleting id 42 from a store that holds ids 1 and 2. -/
theorem c7_delete_nonexistent_is_noop_witness :
    Database.delete_snippet
        ⟨[⟨1, "a", "", "c1", "", 5, 1⟩, ⟨2, "b", "", "c2", "", 9, 2⟩], 3⟩ 42 =
      (true, ⟨[⟨1, "a", "", "c1", "", 5, 1⟩, ⟨2, "b", "", "c2", "", 9, 2⟩], 3⟩) :=
  c7_delete_nonexistent_is_noop _ 42 (by decide)

/-- C8: a store-level update rewrites only name, description, command_text
and tags of rows with the target id; every row keeps its id, created_at and
last_used, non-matching rows are untouched, and the table keeps its
length. -/
theorem c8_update_frame (st : Store) (s : Row) (i : Nat) :
    ((Database.update_snippet st s).2.rows.length = st.rows.length) ∧
    ((Database.update_snippet st s).2.rows[i]?.map (fun r => r.id) =
      st.rows[i]?.map (fun r => r.id)) ∧
    ((Database.update_snippet st s).2.rows[i]?.map (fun r => r.created_at) =
      st.rows[i]?.map (fun r => r.created_at)) ∧
    ((Database.update_snippet st s).2.rows[i]?.map (fun r => r.last_used) =
      st.rows[i]?.map (fun r => r.last_used)) ∧
    (∀ r, st.rows[i]? = some r → r.id ≠ s.id →
      (Database.update_snippet st s).2.rows[i]? = some r) := by
  unfold Database.update_snippet
  simp only [List.getElem?_map, List.length_map]
  refine ⟨by trivial, ?_, ?_, ?_, ?_⟩
  · rcases hr : st.rows[i]? with _ | r
    · rfl
    · by_cases hid : r.id = s.id <;> simp [hid]
  · rcases hr : st.rows[i]? with _ | r
    · rfl
    · by_cases hid : r.id = s.id <;> simp [hid]
  · rcases hr : st.rows[i]? with _ | r
    · rfl
    · by_cases hid : r.id = s.id <;> simp [hid]
  · intro r hr hid
    simp [hr, hid]

/-- C8 witness: updating id 1 in a two-row store leaves the row at index 0
(id 2) untouched; the frame clause of the theorem is applied at that
concrete input with its hypotheses discharged. -/
theorem c8_update_frame_witness :
    (Database.update_snippet
        ⟨[⟨2, "b", "", "c2", "t2", 9, 2⟩, ⟨1, "a", "", "c1", "t1", 5, 1⟩], 3⟩
        ⟨1, "a2", "d2", "c9", "t9", 77, 88⟩).2.rows[0]? =
      some ⟨2, "b", "", "c2", "t2", 9, 2⟩ :=
  (c8_update_frame
      ⟨[⟨2, "b", "", "c2", "t2", 9, 2⟩, ⟨1, "a", "", "c1", "t1", 5, 1⟩], 3⟩
      ⟨1, "a2", "d2", "c9", "t9", 77, 88⟩ 0).2.2.2.2
    ⟨2, "b", "", "c2", "t2", 9, 2⟩ (by decide) (by decide)

/-! ## Export / import (src/utils/backup.py lines 17–127) and claim C5 -/

/-- The versioned JSON export document: `{version: 1, snippets: [...]}`.
The snippet dictionaries are modelled as `Row`s (the export keeps every
column, including `id`). -/
structure ExportDoc where
  version : Nat
  snippets : List Row
deriving DecidableEq

/-- Import statistics returned by `import_snippets_from_json`. -/
structure ImportStats where
  total : Nat
  imported : Nat
  skipped : Nat
  failed : Nat
deriving DecidableEq

namespace Backup

/-- `export_snippets_to_json` (src/utils/backup.py lines 17–62):
`SELECT ... ORDER BY created_at` serialized with `version: 1`. -/
def export_snippets_to_json (st : Store) : ExportDoc :=
  ⟨1, List.insertionSort (fun a b => a.created_at ≤ b.created_at) st.rows⟩

/-- The import loop of `import_snippets_from_json`: each snippet dictionary
has its `id` popped and is inserted, receiving a store-assigned id. -/
def importRows : Store → List Row → Store
  | st, [] => st
  | st, r :: rs => importRows (Database.insert_snippet st r).2 rs

/-- `import_snippets_from_json` (src/utils/backup.py lines 64–127): when
`replace_existing` is set, all rows are deleted first (`DELETE FROM
snippets`, which does not reset the AUTOINCREMENT counter); each document
entry is then inserted with a fresh id.  In this pure model no individual
insert fails, so `imported = total` and `failed = 0`. -/
def import_snippets_from_json (st : Store) (doc : ExportDoc)
    (replace_existing : Bool) : Store × ImportStats :=
  let st0 := if replace_existing then { st with rows := [] } else st
  (importRows st0 doc.snippets, ⟨doc.snippets.length, doc.snippets.length, 0, 0⟩)

end Backup

/-- The user-visible content of a row: everything except the store-assigned
id and the timestamps. -/
def rowKey (r : Row) : String × String × String × String :=
  (r.name, r.description, r.command_text, r.tags)

/-- Rows as they come out of the import loop: ids reassigned sequentially
from a counter. -/
def stampRows (k : Nat) : List Row → List Row
  | [] => []
  | r :: rs => { r with id := k } :: stampRows (k + 1) rs

lemma importRows_eq (rs : List Row) :
    ∀ st : Store,
      Backup.importRows st rs = ⟨st.rows ++ stampRows st.nextId rs, st.nextId + rs.length⟩ := by
  induction rs with
  | nil =>
    intro st
    cases st
    simp [Backup.importRows, stampRows]
  | cons r rs ih =>
    intro st
    rw [Backup.importRows, ih]
    simp [Database.insert_snippet, stampRows, List.append_assoc]
    omega

lemma stampRows_map_rowKey (rs : List Row) :
    ∀ k, (stampRows k rs).map rowKey = rs.map rowKey := by
  induction rs with
  | nil => intro k; rfl
  | cons r rs ih =>
    intro k
    simp only [stampRows, List.map_cons, ih]
    rfl

lemma stampRows_map_id (rs : List Row) :
    ∀ k, (stampRows k rs).map (fun r => r.id) = List.range' k rs.length := by
  induction rs with
  | nil => intro k; rfl
  | cons r rs ih =>
    intro k
    simp only [stampRows, List.map_cons, ih, List.length_cons]
    rfl

lemma stampRows_id_irrelevant (rs : List Row) (f : Nat → Nat) :
    ∀ k, stampRows k (rs.map (fun r => { r with id := f r.id })) = stampRows k rs := by
  induction rs with
  | nil => intro k; rfl
  | cons r rs ih =>
    intro k
    simp only [List.map_cons, stampRows, ih]

/-- C5: exporting every snippet and importing the document with
`replace_existing = true` into an empty store reproduces exactly the same
multiset of (name, description, command_text, tags) tuples; the resulting
ids are the freshly assigned sequence 1..n, and the ids carried by the
document are ignored entirely (rewriting them arbitrarily changes
nothing). -/
theorem c5_export_import_roundtrip (st : Store) :
    List.Perm
      ((Backup.import_snippets_from_json emptyStore
          (Backup.export_snippets_to_json st) true).1.rows.map rowKey)
      (st.rows.map rowKey) ∧
    (Backup.import_snippets_from_json emptyStore
        (Backup.export_snippets_to_json st) true).1.rows.map (fun r => r.id) =
      List.range' 1 st.rows.length ∧
    (∀ f : Nat → Nat,
      (Backup.import_snippets_from_json emptyStore
          ⟨1, (Backup.export_snippets_to_json st).snippets.map
                (fun r => { r with id := f r.id })⟩ true).1 =
        (Backup.import_snippets_from_json emptyStore
          (Backup.export_snippets_to_json st) true).1) := by
  have hperm : List.Perm (Backup.export_snippets_to_json st).snippets st.rows :=
    List.perm_insertionSort _ st.rows
  have hrows :
      (Backup.import_snippets_from_json emptyStore
        (Backup.export_snippets_to_json st) true).1.rows =
      stampRows 1 (Backup.export_snippets_to_json st).snippets := by
    simp [Backup.import_snippets_from_json, emptyStore, importRows_eq]
  refine ⟨?_, ?_, ?_⟩
  · rw [hrows, stampRows_map_rowKey]
    exact hperm.map rowKey
  · rw [hrows, stampRows_map_id, hperm.length_eq]
  · intro f
    simp only [Backup.import_snippets_from_json, if_pos]
    rw [importRows_eq, importRows_eq]
    simp [stampRows_id_irrelevant]

/-! ## Schema migrator (src/db/migrations.py) and claim C4 -/

/-- State visible to the migration runner: whether the `snippets` table
schema still carries the `UNIQUE` constraint on `name`, the append-only
`schema_version` log (version numbers), and a counter of table rebuilds
(DDL sequences `CREATE snippets_new` / `DROP snippets` / `ALTER ... RENAME`)
performed so far. -/
structure MigState where
  hasUniqueConstraint : Bool
  versionLog : List Nat
  rebuilds : Nat
deriving DecidableEq

namespace Migrations

/-- `get_current_version` (src/db/migrations.py lines 37–46):
`SELECT MAX(version)`, or 0 when the log is empty. -/
def get_current_version (s : MigState) : Nat :=
  s.versionLog.foldr max 0

/-- `migrate_to_version_1` (src/db/migrations.py lines 60–120): when the
`UNIQUE` constraint is present the table is rebuilt without it and version 1
is recorded; otherwise version 1 is recorded (if not already reached)
without any rebuild. -/
def migrate_to_version_1 (s : MigState) : MigState :=
  if s.hasUniqueConstraint then
    { hasUniqueConstraint := false, versionLog := 1 :: s.versionLog,
      rebuilds := s.rebuilds + 1 }
  else if get_current_version s < 1 then
    { s with versionLog := 1 :: s.versionLog }
  else s

/-- `ensure_latest_version` (src/db/migrations.py lines 122–135). -/
def ensure_latest_version (s : MigState) : MigState :=
  if get_current_version s < 1 then migrate_to_version_1 s else s

end Migrations

/-- C4: running the migration runner twice is idempotent — after the first
call the current version is at least 1, and the second call returns the
state unchanged, in particular performing no further table rebuild. -/
theorem c4_migration_runner_idempotent (s : MigState) :
    1 ≤ Migrations.get_current_version (Migrations.ensure_latest_version s) ∧
    Migrations.ensure_latest_version (Migrations.ensure_latest_version s) =
      Migrations.ensure_latest_version s ∧
    (Migrations.ensure_latest_version (Migrations.ensure_latest_version s)).rebuilds =
      (Migrations.ensure_latest_version s).rebuilds := by
  have key : 1 ≤ Migrations.get_current_version (Migrations.ensure_latest_version s) := by
    unfold Migrations.ensure_latest_version
    by_cases h : Migrations.get_current_version s < 1
    · rw [if_pos h]
      unfold Migrations.migrate_to_version_1
      by_cases hu : s.hasUniqueConstraint
      · simp [hu, Migrations.get_current_version]
      · rw [if_neg (by simp [hu]), if_pos h]
        simp [Migrations.get_current_version]
    · rw [if_neg h]
      omega
  have stable : Migrations.ensure_latest_version (Migrations.ensure_latest_version s) =
      Migrations.ensure_latest_version s := by
    rw [show Migrations.ensure_latest_version (Migrations.ensure_latest_version s) =
        if Migrations.get_current_version (Migrations.ensure_latest_version s) < 1 then
          Migrations.migrate_to_version_1 (Migrations.ensure_latest_version s)
        else Migrations.ensure_latest_version s from rfl]
    rw [if_neg (by omega)]
  exact ⟨key, stable, by rw [stable]⟩

/-! ## Snapshot subsystem failure handling (claim C1) -/

/-- Oracle describing which filesystem-level snapshot operations raise
during one mutation bracket (any exception inside the corresponding `try`
body in src/utils/backup.py), plus the timestamp id the BEFORE snapshot
would be given and the number of directories a successful cleanup would
remove. -/
structure SnapEnv where
  beforeFails : Bool
  afterFails : Bool
  cleanupFails : Bool
  snapshotId : String
  cleanupDeleted : Nat
deriving DecidableEq

/-- A Python dict of string keys and values. -/
abbrev StrDict := List (String × String)

/-- `dict.get(k, default)`. -/
def dictGet (d : StrDict) (k dflt : String) : String :=
  match d.lookup k with
  | some v => v
  | none => dflt

namespace Backup

/-- `create_snapshot_before` (src/utils/backup.py lines 307–365): on any
failure inside the `try` body the exception is caught, logged, and an empty
dict is returned; otherwise the snapshot info dict is returned. -/
def create_snapshot_before (env : SnapEnv) (db_path operation snippet_name : String) :
    StrDict :=
  if env.beforeFails then []
  else
    [("backup_path", joinPath (create_snapshot_before_dir db_path env.snapshotId) "before.db"),
     ("snapshot_dir", create_snapshot_before_dir db_path env.snapshotId),
     ("snapshot_id", env.snapshotId)]

/-- `create_snapshot_after` (src/utils/backup.py lines 368–412): an absent
snapshot directory or any failure inside the `try` body yields an empty
dict. -/
def create_snapshot_after (env : SnapEnv) (db_path snapshot_id : String) : StrDict :=
  if env.afterFails then []
  else
    [("backup_path", joinPath (create_snapshot_before_dir db_path snapshot_id) "after.db"),
     ("snapshot_dir", create_snapshot_before_dir db_path snapshot_id)]

/-- `cleanup_old_snapshots` (src/utils/backup.py lines 483–526): returns 0
on any failure, otherwise the number of snapshot directories removed. -/
def cleanup_old_snapshots (env : SnapEnv) (db_path : String) (keep_count : Nat) : Nat :=
  if env.cleanupFails then 0 else env.cleanupDeleted

end Backup

namespace SnippetManager

/-- `SnippetManager.add_snippet` (src/core/snippet_manager.py lines 30–81):
validates inputs, takes a best-effort BEFORE snapshot, inserts the row,
takes an AFTER snapshot only when a non-empty snapshot id was obtained, and
prunes old snapshots.  The manager-level snapshot wrappers (lines 369–441)
add a second `try`/`except` around the already-total utility calls. -/
def add_snippet (env : SnapEnv) (db_path : String) (st : Store)
    (name description command_text tags : String) (now : Nat)
    (allow_duplicate_names : Bool) : Except String (Nat × Store) :=
  if pyStrip name = "" then .error "Snippet name cannot be empty"
  else if pyStrip command_text = "" then .error "Command text cannot be empty"
  else if allow_duplicate_names = false ∧
      Database.name_exists st (pyStrip name) none = true then
    .error ("A snippet with the name " ++ name ++ " already exists")
  else
    let snapshot_info := Backup.create_snapshot_before env db_path "add" (pyStrip name)
    let snapshot_id := dictGet snapshot_info "snapshot_id" ""
    let result := Database.insert_snippet st
      ⟨0, pyStrip name, pyStrip description, pyStrip command_text, pyStrip tags, now, now⟩
    let _after := if snapshot_id ≠ "" then
        Backup.create_snapshot_after env db_path snapshot_id
      else []
    let _deleted := Backup.cleanup_old_snapshots env db_path 5
    .ok result

/-- `SnippetManager.update_snippet` (src/core/snippet_manager.py
lines 116–173): validates inputs, loads the existing row to preserve its
timestamps, brackets the store update with best-effort snapshots. -/
def update_snippet (env : SnapEnv) (db_path : String) (st : Store) (snippet_id : Nat)
    (name description command_text tags : String) : Except String (Bool × Store) :=
  if pyStrip name = "" then .error "Snippet name cannot be empty"
  else if pyStrip command_text = "" then .error "Command text cannot be empty"
  else
    match Database.get_snippet_by_id st snippet_id with
    | none => .error ("Snippet with ID " ++ toString snippet_id ++ " not found")
    | some existing =>
      let snapshot_info := Backup.create_snapshot_before env db_path "update" (pyStrip name)
      let snapshot_id := dictGet snapshot_info "snapshot_id" ""
      let result := Database.update_snippet st
        ⟨snippet_id, pyStrip name, pyStrip description, pyStrip command_text, pyStrip tags,
         existing.last_used, existing.created_at⟩
      let _after := if snapshot_id ≠ "" then
          Backup.create_snapshot_after env db_path snapshot_id
        else []
      let _deleted := Backup.cleanup_old_snapshots env db_path 5
      .ok result

/-- `SnippetManager.delete_snippet` (src/core/snippet_manager.py
lines 175–209): looks up the row name (falling back to
`snippet_<id>`), brackets the store delete with best-effort snapshots. -/
def delete_snippet (env : SnapEnv) (db_path : String) (st : Store) (snippet_id : Nat) :
    Except String (Bool × Store) :=
  let snippet_name := match Database.get_snippet_by_id st snippet_id with
    | some s => s.name
    | none => "snippet_" ++ toString snippet_id
  let snapshot_info := Backup.create_snapshot_before env db_path "delete" snippet_name
  let snapshot_id := dictGet snapshot_info "snapshot_id" ""
  let result := Database.delete_snippet st snippet_id
  let _after := if snapshot_id ≠ "" then
      Backup.create_snapshot_after env db_path snapshot_id
    else []
  let _deleted := Backup.cleanup_old_snapshots env db_path 5
  .ok result

end SnippetManager

/-- C1: whatever combination of snapshot-creation and cleanup failures the
environment injects, each mutating manager operation succeeds and returns
exactly the underlying store operation's result, and the failing snapshot
and cleanup wrappers return an empty dict / 0 instead of raising. -/
theorem c1_snapshot_failures_never_propagate (env : SnapEnv) (db_path : String)
    (stA stU stD : Store) (name description command_text tags : String) (now : Nat)
    (uid did : Nat) (uname udesc ucmd utags : String) (ex : Row)
    (h1 : pyStrip name ≠ "") (h2 : pyStrip command_text ≠ "")
    (h3 : pyStrip uname ≠ "") (h4 : pyStrip ucmd ≠ "")
    (h5 : Database.get_snippet_by_id stU uid = some ex) :
    SnippetManager.add_snippet env db_path stA name description command_text tags now true =
      .ok (Database.insert_snippet stA
        ⟨0, pyStrip name, pyStrip description, pyStrip command_text, pyStrip tags,
         now, now⟩) ∧
    SnippetManager.update_snippet env db_path stU uid uname udesc ucmd utags =
      .ok (Database.update_snippet stU
        ⟨uid, pyStrip uname, pyStrip udesc, pyStrip ucmd, pyStrip utags,
         ex.last_used, ex.created_at⟩) ∧
    SnippetManager.delete_snippet env db_path stD did =
      .ok (Database.delete_snippet stD did) ∧
    (env.beforeFails = true →
      Backup.create_snapshot_before env db_path "add" (pyStrip name) = []) ∧
    (env.afterFails = true →
      Backup.create_snapshot_after env db_path env.snapshotId = []) ∧
    (env.cleanupFails = true → Backup.cleanup_old_snapshots env db_path 5 = 0) := by
  refine ⟨?_, ?_, ?_, ?_, ?_, ?_⟩
  · rw [SnippetManager.add_snippet, if_neg h1, if_neg h2, if_neg (by simp)]
  · rw [SnippetManager.update_snippet, if_neg h3, if_neg h4, h5]
  · rw [SnippetManager.delete_snippet]
  · intro hf
    rw [Backup.create_snapshot_before, if_pos hf]
  · intro hf
    rw [Backup.create_snapshot_after, if_pos hf]
  · intro hf
    rw [Backup.cleanup_old_snapshots, if_pos hf]

/-- C1 witness: a fully failing snapshot environment around concrete add,
update and delete operations. -/
theorem c1_snapshot_failures_never_propagate_witness :
    SnippetManager.add_snippet ⟨true, true, true, "T", 0⟩ "data/snippets.db"
        ⟨[], 1⟩ "n" "d" "c" "t" 7 true =
      .ok (Database.insert_snippet ⟨[], 1⟩
        ⟨0, pyStrip "n", pyStrip "d", pyStrip "c", pyStrip "t", 7, 7⟩) ∧
    SnippetManager.update_snippet ⟨true, true, true, "T", 0⟩ "data/snippets.db"
        ⟨[⟨1, "old", "", "cmd", "", 5, 6⟩], 2⟩ 1 "n2" "d2" "c2" "t2" =
      .ok (Database.update_snippet ⟨[⟨1, "old", "", "cmd", "", 5, 6⟩], 2⟩
        ⟨1, pyStrip "n2", pyStrip "d2", pyStrip "c2", pyStrip "t2", 5, 6⟩) ∧
    SnippetManager.delete_snippet ⟨true, true, true, "T", 0⟩ "data/snippets.db"
        ⟨[⟨1, "old", "", "cmd", "", 5, 6⟩], 2⟩ 1 =
      .ok (Database.delete_snippet ⟨[⟨1, "old", "", "cmd", "", 5, 6⟩], 2⟩ 1) ∧
    ((⟨true, true, true, "T", 0⟩ : SnapEnv).beforeFails = true →
      Backup.create_snapshot_before ⟨true, true, true, "T", 0⟩ "data/snippets.db"
        "add" (pyStrip "n") = []) ∧
    ((⟨true, true, true, "T", 0⟩ : SnapEnv).afterFails = true →
      Backup.create_snapshot_after ⟨true, true, true, "T", 0⟩ "data/snippets.db" "T" = []) ∧
    ((⟨true, true, true, "T", 0⟩ : SnapEnv).cleanupFails = true →
      Backup.cleanup_old_snapshots ⟨true, true, true, "T", 0⟩ "data/snippets.db" 5 = 0) :=
  c1_snapshot_failures_never_propagate ⟨true, true, true, "T", 0⟩ "data/snippets.db"
    ⟨[], 1⟩ ⟨[⟨1, "old", "", "cmd", "", 5, 6⟩], 2⟩ ⟨[⟨1, "old", "", "cmd", "", 5, 6⟩], 2⟩
    "n" "d" "c" "t" 7 1 1 "n2" "d2" "c2" "t2" ⟨1, "old", "", "cmd", "", 5, 6⟩
    (by decide) (by decide) (by decide) (by decide) (by decide)

/-! ## Snapshot listing (src/utils/backup.py lines 415–480) and claim C9 -/

/-- Lexicographic order on code points, as Python compares strings. -/
def charLeLex : List Char → List Char → Bool
  | [], _ => true
  | _ :: _, [] => false
  | a :: as, b :: bs =>
    if a.toNat < b.toNat then true
    else if b.toNat < a.toNat then false
    else charLeLex as bs

def strLe (a b : String) : Bool := charLeLex a.data b.data

/-- Contents of one snapshot's `metadata.json`. -/
structure SnapMeta where
  operation : String
  snippet_name : String
  before_timestamp : String
  after_timestamp : String
  status : String
deriving DecidableEq

/-- One directory entry under `backups/auto/`: its name, its metadata
(`none` when `metadata.json` is missing or unreadable), and the sizes of
`before.db` / `after.db` when those files exist. -/
structure SnapDirEntry where
  name : String
  metadata : Option SnapMeta
  beforeSize : Option Nat
  afterSize : Option Nat
deriving DecidableEq

/-- One entry of the list returned by `list_snapshots` (sizes kept in
bytes). -/
structure SnapInfo where
  snapshot_id : String
  operation : String
  snippet_name : String
  before_timestamp : String
  after_timestamp : String
  status : String
  before_size : Nat
  after_size : Nat
deriving DecidableEq

namespace Backup

/-- `list_snapshots` (src/utils/backup.py lines 415–480): sorts the raw
directory listing reverse-lexically, truncates it to `limit`
(`snapshot_dirs[:limit]`), and only THEN keeps the entries whose
`metadata.json` exists and is readable. -/
def list_snapshots (entries : List SnapDirEntry) (limit : Nat) : List SnapInfo :=
  let snapshot_dirs := List.insertionSort (fun a b => strLe b.name a.name = true) entries
  (snapshot_dirs.take limit).filterMap (fun e =>
    e.metadata.map (fun m =>
      ⟨e.name, m.operation, m.snippet_name, m.before_timestamp, m.after_timestamp, m.status,
       e.beforeSize.getD 0, e.afterSize.getD 0⟩))

end Backup

/-- Number of snapshot directories whose metadata is readable. -/
def validMetadataCount (entries : List SnapDirEntry) : Nat :=
  (entries.filter (fun e => e.metadata.isSome)).length

/-- C9: because `list_snapshots` truncates the reverse-lexically-sorted raw
listing to `limit` before dropping entries without readable metadata, a
directory state with one valid snapshot plus a newer entry lacking metadata
returns fewer than `limit = 1` entries even though one valid snapshot
exists. -/
theorem c9_limit_applied_before_metadata_filter :
    (Backup.list_snapshots
        [⟨"20240101_000000_000000", some ⟨"add", "x", "t0", "t1", "completed"⟩,
          some 4096, some 4096⟩,
         ⟨"20240102_000000_000000", none, some 4096, none⟩] 1).length < 1 ∧
    1 ≤ validMetadataCount
        [⟨"20240101_000000_000000", some ⟨"add", "x", "t0", "t1", "completed"⟩,
          some 4096, some 4096⟩,
         ⟨"20240102_000000_000000", none, some 4096, none⟩] := by
  constructor
  · decide
  · decide

end CSM
